import Mathlib

/-!
Formal model of the woody_logger package (`src/woody_logger/logger.py` and
`src/woody_logger/__init__.py`).

The Python module provides:
* `HealthCheckFilter` — a `logging.Filter` that suppresses records whose
  rendered message matches one of a list of regular expressions, compiled
  with `re.IGNORECASE` and applied with `pattern.search` (substring search);
* `ChinaTimeFormatter` — a `logging.Formatter` whose `formatTime` renders
  `record.created` in the fixed UTC+8 offset `CHINA_TZ`;
* `get_logger` — a registry-backed constructor attaching one
  `TimedRotatingFileHandler` (midnight rotation, interval 1, backupCount 30)
  and one `StreamHandler` to the process-global logger for `name`, plus the
  filter when `filter_health_check` is true;
* the module-level binding `logger = get_logger()` executed at import time.

Modelling conventions:
* Regular expressions are modelled on the fragment this repository uses:
  literal characters, a literal made optional by a trailing `?`, and a final
  end-of-string anchor `$`.  Any other metacharacter — in particular an
  unmatched `(` — makes `re.compile` raise `re.error`; compilation is
  therefore `Except String _`, with the error standing for `re.error`
  (the spec's `ConfigError`).  `re.IGNORECASE` is modelled by comparing
  characters through `Char.toLower`; `$` matches at the end of the string or
  just before a single trailing newline, as in Python.
* Instants are nonnegative microsecond counts since the Unix epoch
  (`record.created` is a nonnegative Unix timestamp; its fractional part is
  exact in this model).  `datetime.fromtimestamp(created, tz)` becomes a pure
  civil-calendar computation from `floor(created) + offset` seconds; the host
  timezone is an explicit parameter consulted only when `tz` is absent.
* Filesystem and registry effects of `get_logger` are an explicit state:
  the `logging` manager's name→logger map, the set of directories created by
  `os.makedirs`, and the multiset of files opened by handler construction.
  Python mutates the registered logger object in place; the model stores the
  final mutated value at every exit point, including the exceptional one.
-/

/-! ### Regular-expression fragment (`re.compile(p, re.IGNORECASE)` / `pattern.search`) -/

/-- One compiled element: a literal character, or a literal made optional by
a trailing `?` quantifier. -/
inductive RElem where
  | lit (c : Char)
  | opt (c : Char)
deriving DecidableEq

/-- A compiled pattern: its elements, and whether it ends with the `$`
end-of-string anchor. -/
structure CRegex where
  elems : List RElem
  anchorEnd : Bool
deriving DecidableEq

/-- Case-insensitive character comparison, the effect of `re.IGNORECASE`
for the ASCII patterns of this repository. -/
def ciEq (a b : Char) : Bool := a.toLower == b.toLower

/-- Where a match may stop: anywhere if the pattern has no `$`; with `$`,
at the end of the string or just before one trailing newline (Python
semantics of `$` without `re.MULTILINE`). -/
def endOk (anchored : Bool) (rest : List Char) : Bool :=
  !anchored || rest.isEmpty || rest == ['\n']

/-- Match the element list against a prefix of `rest`, with backtracking for
optional elements, then check the anchor. -/
def matchElems (anchored : Bool) : List RElem → List Char → Bool
  | [], rest => endOk anchored rest
  | RElem.lit _ :: _, [] => false
  | RElem.lit c :: es, x :: rest => ciEq x c && matchElems anchored es rest
  | RElem.opt _ :: es, [] => matchElems anchored es []
  | RElem.opt c :: es, x :: rest =>
      (ciEq x c && matchElems anchored es rest) || matchElems anchored es (x :: rest)

/-- `pattern.search`: try a match starting at every position of the string
(substring search, not `fullmatch`). -/
def searchFrom (r : CRegex) : List Char → Bool
  | [] => matchElems r.anchorEnd r.elems []
  | x :: rest => matchElems r.anchorEnd r.elems (x :: rest) || searchFrom r rest

/-- `pattern.search(message)` on a string, as a Bool (`None` ↦ `false`). -/
def regexSearch (r : CRegex) (msg : String) : Bool :=
  searchFrom r msg.toList

/-- Metacharacters outside the supported fragment.  Each of them would need
regex machinery this repository never exercises; Python rejects some of them
outright in the positions our compiler encounters them (an unmatched `(`
raises `re.error: missing ), unterminated subpattern`; a leading `?` raises
`re.error: nothing to repeat`). -/
def specialChars : List Char := ['(', ')', '[', ']', '|', '*', '+', '^', '.', '?', '$', '\\']

/-- Compile the character list of a pattern.  A final `$` sets the anchor; a
`?` directly after a literal makes it optional; a metacharacter anywhere
else is a compilation error, modelling `re.error`. -/
def compileAux : List Char → Except String (List RElem × Bool)
  | [] => Except.ok ([], false)
  | ['$'] => Except.ok ([], true)
  | c :: '?' :: rest =>
      if specialChars.contains c then Except.error ("invalid regular expression")
      else (compileAux rest).map (fun ea => (RElem.opt c :: ea.1, ea.2))
  | c :: rest =>
      if specialChars.contains c then Except.error ("invalid regular expression")
      else (compileAux rest).map (fun ea => (RElem.lit c :: ea.1, ea.2))

/-- `re.compile(p, re.IGNORECASE)` on the supported fragment. -/
def compilePattern (p : String) : Except String CRegex :=
  (compileAux p.toList).map (fun ea => CRegex.mk ea.1 ea.2)

/-- `DEFAULT_HEALTH_CHECK_PATTERNS` from `logger.py`. -/
def DEFAULT_HEALTH_CHECK_PATTERNS : List String := ["/api/health/?$", "/health/?$"]

namespace HealthCheckFilter

/-- `HealthCheckFilter.__init__`: substitute the default patterns when the
argument is `None`, then compile each pattern; the first compilation error
aborts construction (the `re.compile` call raises inside the list
comprehension). -/
def init (patterns : Option (List String)) : Except String (List CRegex) :=
  (patterns.getD DEFAULT_HEALTH_CHECK_PATTERNS).mapM compilePattern

/-- `HealthCheckFilter.filter`: starting from the record's rendered message
(`record.getMessage()`), return `false` on the first pattern whose `search`
succeeds, `true` when no pattern matches. -/
def filter : List CRegex → String → Bool
  | [], _ => true
  | p :: ps, msg => if regexSearch p msg then false else filter ps msg

end HealthCheckFilter

/-- Equality of compilation / filtering results is decidable, so concrete
runs can be checked by `decide`. -/
instance {ε α : Type} [DecidableEq ε] [DecidableEq α] : DecidableEq (Except ε α)
  | Except.error a, Except.error b =>
      if h : a = b then isTrue (by rw [h])
      else isFalse (by intro hh; injection hh; contradiction)
  | Except.error _, Except.ok _ => isFalse (by intro h; cases h)
  | Except.ok _, Except.error _ => isFalse (by intro h; cases h)
  | Except.ok a, Except.ok b =>
      if h : a = b then isTrue (by rw [h])
      else isFalse (by intro hh; injection hh; contradiction)

/-! ### Time rendering (`CHINA_TZ`, `ChinaTimeFormatter.formatTime`) -/

/-- A civil date-time, the observable fields of a Python `datetime`. -/
structure Civil where
  year : Int
  month : Nat
  day : Nat
  hour : Nat
  minute : Nat
  second : Nat
deriving DecidableEq

/-- Proleptic-Gregorian date of a day count relative to 1970-01-01 (the
standard era-based civil-from-days computation used by C libraries that
`datetime.fromtimestamp` wraps). -/
def civilFromDays (z : Int) : Int × Nat × Nat :=
  let zz := z + 719468
  let era := zz / 146097
  let doe := (zz % 146097).toNat
  let yoe := (doe - doe / 1460 + doe / 36524 - doe / 146096) / 365
  let doy := doe - (365 * yoe + yoe / 4 - yoe / 100)
  let mp := (5 * doy + 2) / 153
  let d := doy - (153 * mp + 2) / 5 + 1
  let m := if mp < 10 then mp + 3 else mp - 9
  let y := (yoe : Int) + era * 400
  (if m ≤ 2 then y + 1 else y, m, d)

/-- Civil date-time of an epoch-second count (already shifted by the wanted
UTC offset). -/
def civilOfEpochSeconds (t : Int) : Civil :=
  let days := t / 86400
  let sod := (t % 86400).toNat
  let ymd := civilFromDays days
  Civil.mk ymd.1 ymd.2.1 ymd.2.2 (sod / 3600) (sod % 3600 / 60) (sod % 60)

/-- `CHINA_TZ = timezone(timedelta(hours=8))`, as an offset in seconds. -/
def CHINA_TZ : Int := 8 * 3600

/-- `datetime.fromtimestamp(created, tz)`: interpret a Unix instant (here a
nonnegative microsecond count) in the offset `tz`, or in the host's local
offset when `tz` is absent — the only place the host timezone can enter. -/
def fromtimestamp (created_us : Nat) (tz : Option Int) (hostOffset : Int) : Civil :=
  civilOfEpochSeconds (Int.ofNat (created_us / 1000000) + tz.getD hostOffset)

/-- Left-pad a number with zeros to `w` digits, as `strftime` field padding
and the `:03d` format spec do. -/
def pad (w n : Nat) : String :=
  let s := toString n
  if s.length < w then String.mk (List.replicate (w - s.length) '0') ++ s else s

/-- `ct.strftime("%Y-%m-%d %H:%M:%S")` on a civil date-time (years of Unix
instants are four digits). -/
def strftimeDefault (c : Civil) : String :=
  pad 4 c.year.toNat ++ "-" ++ pad 2 c.month ++ "-" ++ pad 2 c.day ++ " " ++
    pad 2 c.hour ++ ":" ++ pad 2 c.minute ++ ":" ++ pad 2 c.second

/-- `record.msecs`: `int((created - int(created)) * 1000)`, the truncated
millisecond count of the fractional second. -/
def recordMsecs (created_us : Nat) : Nat := created_us % 1000000 / 1000

namespace ChinaTimeFormatter

/-- `ChinaTimeFormatter.formatTime`, with the host's UTC offset as an
explicit parameter (Python reads it from the environment).  A supplied
`datefmt` is the compiled meaning of an `strftime` format string, applied to
the converted civil time.  With no `datefmt`, the source formats
`ct.strftime("%Y-%m-%d %H:%M:%S")` and appends `f",{int(record.msecs):03d}"`. -/
def formatTimeAt (hostOffset : Int) (created_us : Nat) (datefmt : Option (Civil → String)) : String :=
  let ct := fromtimestamp created_us (some CHINA_TZ) hostOffset
  match datefmt with
  | some fmt => fmt ct
  | none => strftimeDefault ct ++ "," ++ pad 3 (recordMsecs created_us)

/-- `formatTime` as the program calls it (any ambient host offset; the value
is irrelevant, which is exactly claim C5). -/
def formatTime (created_us : Nat) (datefmt : Option (Civil → String)) : String :=
  formatTimeAt 0 created_us datefmt

end ChinaTimeFormatter

/-- Rendering described by the specification: the civil time of the instant
at the fixed UTC+8 offset, written `YYYY-MM-DD HH:MM:SS,mmm` with a comma
separator, where `mmm` is the truncated (not rounded) milliseconds of the
sub-second component of the instant. -/
def renderSpec (created_us : Nat) : String :=
  let ct := civilOfEpochSeconds (Int.ofNat (created_us / 1000000) + CHINA_TZ)
  pad 4 ct.year.toNat ++ "-" ++ pad 2 ct.month ++ "-" ++ pad 2 ct.day ++ " " ++
    pad 2 ct.hour ++ ":" ++ pad 2 ct.minute ++ ":" ++ pad 2 ct.second ++ "," ++
    pad 3 (created_us / 1000 % 1000)

/-! ### File rotation trigger (`TimedRotatingFileHandler`, `when="midnight"`) -/

/-- `logging.handlers._MIDNIGHT`: seconds per day. -/
def MIDNIGHT : Int := 86400

/-- `TimedRotatingFileHandler.computeRollover` for `when="midnight"`,
`interval=1`, `atTime=None` and the default `utc=False`: the handler reads
the seconds-of-day of `currentTime` from `time.localtime` — the HOST's
civil clock, `hostOffset` seconds east of UTC — and schedules the next
rollover `_MIDNIGHT - secondsOfDay` seconds later. -/
def computeRollover (hostOffset currentTime : Int) : Int :=
  currentTime + (MIDNIGHT - (currentTime + hostOffset) % MIDNIGHT)

/-- `TimedRotatingFileHandler.shouldRollover`: a write at time `t` rotates
iff `t` has reached the scheduled rollover time. -/
def shouldRollover (rolloverAt t : Int) : Bool := rolloverAt ≤ t

/-! ### Logger registry and construction (`get_logger`, module import) -/

/-- Logger levels reachable in this module: a fresh logger's `NOTSET` and
the `DEBUG` that `get_logger` always sets. -/
inductive Level where
  | notset
  | debug
deriving DecidableEq

/-- An attached sink: the `TimedRotatingFileHandler` on its file path
(when="midnight", interval=1, backupCount=30, suffix "%Y-%m-%d",
encoding="utf-8"), or the console `StreamHandler`. -/
inductive Handler where
  | file (path : String)
  | console
deriving DecidableEq

/-- The observable configuration of a `logging.Logger` object: its level,
attached handlers in attachment order, and attached filters (each filter is
its list of compiled patterns). -/
structure LoggerInstance where
  level : Level
  handlers : List Handler
  filters : List (List CRegex)
deriving DecidableEq

/-- The process-global state `get_logger` reads and mutates: the `logging`
manager's name→logger registry, the directories created by `os.makedirs`,
and the files opened by file-handler construction (a multiset: each
construction opens one handle). -/
structure SysState where
  registry : List (String × LoggerInstance)
  dirs : List String
  openFiles : List String
deriving DecidableEq

/-- The state before the module body runs. -/
def emptyState : SysState := SysState.mk [] [] []

/-- Look a name up in the registry (`logging.getLogger` lookup step). -/
def lookup : List (String × LoggerInstance) → String → Option LoggerInstance
  | [], _ => none
  | (m, j) :: rest, n => if m = n then some j else lookup rest n

/-- Store a logger under a name, replacing any existing binding. -/
def regSet : List (String × LoggerInstance) → String → LoggerInstance → List (String × LoggerInstance)
  | [], n, i => [(n, i)]
  | (m, j) :: rest, n, i => if m = n then (n, i) :: rest else (m, j) :: regSet rest n i

/-- `os.makedirs(log_dir, exist_ok=True)`: ensure the directory exists. -/
def makedirs (d : String) (ds : List String) : List String :=
  if ds.contains d then ds else d :: ds

/-- `get_logger(name, log_dir, filter_health_check, health_check_patterns)`.

Control flow of the source, in order: `os.makedirs(log_dir, exist_ok=True)`;
`logging.getLogger(name)` (returning the registered logger or a fresh one);
`logger.setLevel(logging.DEBUG)`; then only if `logger.handlers` is empty:
open `{log_dir}/{name}.log`, attach the file handler and the console
handler, and — when `filter_health_check` — construct `HealthCheckFilter`
(which may raise) and attach it.  Python mutates the registered object in
place, so when filter construction raises, the already-attached handlers,
the created directory and the opened file remain in the global state; the
model commits the mutated logger to the registry at every exit point. -/
def get_logger (name log_dir : String) (filter_health_check : Bool)
    (health_check_patterns : Option (List String)) (s : SysState) :
    Except String LoggerInstance × SysState :=
  let dirs := makedirs log_dir s.dirs
  let inst0 := (lookup s.registry name).getD (LoggerInstance.mk Level.notset [] [])
  let inst1 := { inst0 with level := Level.debug }
  if inst1.handlers.isEmpty then
    let log_file := log_dir ++ "/" ++ name ++ ".log"
    let opened := log_file :: s.openFiles
    let inst2 := { inst1 with handlers := [Handler.file log_file, Handler.console] }
    if filter_health_check then
      match HealthCheckFilter.init health_check_patterns with
      | Except.error e =>
          (Except.error e, SysState.mk (regSet s.registry name inst2) dirs opened)
      | Except.ok f =>
          let inst3 := { inst2 with filters := [f] }
          (Except.ok inst3, SysState.mk (regSet s.registry name inst3) dirs opened)
    else
      (Except.ok inst2, SysState.mk (regSet s.registry name inst2) dirs opened)
  else
    (Except.ok inst1, SysState.mk (regSet s.registry name inst1) dirs s.openFiles)

/-- The module-level statement `logger = get_logger()` executed at import
time, with the source's default arguments `name="app"`, `log_dir="logs"`,
`filter_health_check=True`, `health_check_patterns=None`, from the initial
state. -/
def moduleImportResult : Except String LoggerInstance × SysState :=
  get_logger ("app") ("logs") true none emptyState

/-! ### Registry lemmas -/

/-- Storing a logger under a name makes it the one the next lookup finds. -/
theorem lookup_regSet_self (reg : List (String × LoggerInstance)) (n : String) (i : LoggerInstance) :
    lookup (regSet reg n i) n = some i := by
  induction reg with
  | nil => simp [regSet, lookup]
  | cons hd tl ih =>
    obtain ⟨m, j⟩ := hd
    by_cases h : m = n <;> simp [regSet, lookup, h, ih]

/-- Re-storing the value a name already maps to leaves the registry as it
was (the model's rendering of Python's in-place mutation of the registered
object). -/
theorem regSet_lookup_eq (reg : List (String × LoggerInstance)) (n : String) (i : LoggerInstance)
    (h : lookup reg n = some i) : regSet reg n i = reg := by
  induction reg with
  | nil => simp [lookup] at h
  | cons hd tl ih =>
    obtain ⟨m, j⟩ := hd
    by_cases hm : m = n
    · subst hm
      simp [lookup] at h
      simp [regSet, h]
    · simp [lookup, hm] at h
      simp [regSet, hm, ih h]

/-- Characterization of a first, successful `get_logger` call for a name:
the returned instance is at level DEBUG with exactly the file handler on
`{log_dir}/{name}.log` followed by the console handler, and the state gains
that registration, the created directory and one opened file. -/
theorem acquire_fresh (s : SysState) (n d : String) (f : Bool) (p : Option (List String))
    (inst : LoggerInstance)
    (hnone : lookup s.registry n = none)
    (hok : (get_logger n d f p s).1 = Except.ok inst) :
    inst.level = Level.debug ∧
    inst.handlers = [Handler.file (d ++ "/" ++ n ++ ".log"), Handler.console] ∧
    (get_logger n d f p s).2 =
      SysState.mk (regSet s.registry n inst) (makedirs d s.dirs)
        ((d ++ "/" ++ n ++ ".log") :: s.openFiles) := by
  cases f
  · simp [get_logger, hnone] at hok ⊢
    simp [← hok]
  · cases hinit : HealthCheckFilter.init p
    · simp [get_logger, hnone, hinit] at hok
    · simp [get_logger, hnone, hinit] at hok ⊢
      simp [← hok]

/-- Characterization of a repeat `get_logger` call: when the registered
logger already has handlers and is at level DEBUG, the call returns it
as-is, leaves registry and open files untouched, and its only state effect
is `os.makedirs(log_dir)` — which runs before the handlers check on every
call. -/
theorem acquire_repeat (s : SysState) (n d : String) (f : Bool) (p : Option (List String))
    (i : LoggerInstance)
    (hsome : lookup s.registry n = some i)
    (hh : i.handlers ≠ [])
    (hl : i.level = Level.debug) :
    get_logger n d f p s = (Except.ok i, SysState.mk s.registry (makedirs d s.dirs) s.openFiles) := by
  obtain ⟨l, hs, fs⟩ := i
  cases hl
  cases hs with
  | nil => exact absurd rfl hh
  | cons a as =>
    simp [get_logger, hsome, List.isEmpty, regSet_lookup_eq s.registry n _ hsome]

/-! ### Claims -/

/-- C1 (amended): when a supplied pattern is not a valid regular expression,
`get_logger` raises the compilation error synchronously to its caller and no
filter is installed; however, the file and console handlers attached before
the filter construction remain on the registered logger, so every subsequent
`get_logger` of the same name returns that partially-configured instance —
carrying the sinks attached during the failed call and no filter. -/
theorem C1_amended (s : SysState) (n d : String) (p : Option (List String)) (e : String)
    (hnone : lookup s.registry n = none)
    (herr : HealthCheckFilter.init p = Except.error e) :
    (get_logger n d true p s).1 = Except.error e ∧
    lookup ((get_logger n d true p s).2).registry n =
      some (LoggerInstance.mk Level.debug
        [Handler.file (d ++ "/" ++ n ++ ".log"), Handler.console] []) ∧
    (∀ (d2 : String) (f2 : Bool) (p2 : Option (List String)),
      (get_logger n d2 f2 p2 ((get_logger n d true p s).2)).1 =
        Except.ok (LoggerInstance.mk Level.debug
          [Handler.file (d ++ "/" ++ n ++ ".log"), Handler.console] [])) := by
  have hfirst : get_logger n d true p s =
      (Except.error e,
        SysState.mk
          (regSet s.registry n (LoggerInstance.mk Level.debug
            [Handler.file (d ++ "/" ++ n ++ ".log"), Handler.console] []))
          (makedirs d s.dirs) ((d ++ "/" ++ n ++ ".log") :: s.openFiles)) := by
    simp [get_logger, hnone, herr]
  refine ⟨by rw [hfirst], ?_, ?_⟩
  · rw [hfirst]
    exact lookup_regSet_self _ _ _
  · intro d2 f2 p2
    have hlook : lookup ((get_logger n d true p s).2).registry n =
        some (LoggerInstance.mk Level.debug
          [Handler.file (d ++ "/" ++ n ++ ".log"), Handler.console] []) := by
      rw [hfirst]
      exact lookup_regSet_self _ _ _
    have h2 := acquire_repeat ((get_logger n d true p s).2) n d2 f2 p2 _ hlook (by simp) rfl
    rw [h2]

/-- C1 witness: concrete failing pattern `"("` from the empty state. -/
theorem C1_witness :
    HealthCheckFilter.init (some [("(")]) = Except.error ("invalid regular expression") ∧
    (get_logger ("app") ("logs") true (some [("(")]) emptyState).1 =
      Except.error ("invalid regular expression") :=
  ⟨by rfl,
    (C1_amended emptyState ("app") ("logs") (some [("(")]) ("invalid regular expression")
      (by rfl) (by rfl)).1⟩

/-- C1 counterexample to the claim as stated: after `get_logger("app")` fails
on pattern `"("`, a subsequent `get_logger` of the same name returns an
instance carrying the sinks attached during the failed call (note the file
path from the first call's directory), so a partially-configured logger IS
observable. -/
theorem C1_counterexample :
    (get_logger ("app") ("logs") true (some [("(")]) emptyState).1 =
      Except.error ("invalid regular expression") ∧
    ((get_logger ("app") ("logs2") false none
        ((get_logger ("app") ("logs") true (some [("(")]) emptyState).2)).1).map
      (fun i => i.handlers) = Except.ok [Handler.file ("logs/app.log"), Handler.console] :=
  ⟨rfl, rfl⟩

/-- C2 (amended): a repeat `get_logger` for a configured name returns the
existing instance unchanged — level, handlers and filters untouched — and
ignores `filter_health_check` and `health_check_patterns` (the conclusion is
independent of `f` and `p`); but it is not free of side effects depending on
`log_dir`: `os.makedirs(log_dir)` still runs, so the directory named by the
repeat call's `log_dir` is created if missing. -/
theorem C2_amended (s : SysState) (n d : String) (f : Bool) (p : Option (List String))
    (i : LoggerInstance)
    (hsome : lookup s.registry n = some i)
    (hh : i.handlers ≠ [])
    (hl : i.level = Level.debug) :
    (get_logger n d f p s).1 = Except.ok i ∧
    ((get_logger n d f p s).2).registry = s.registry ∧
    ((get_logger n d f p s).2).openFiles = s.openFiles ∧
    ((get_logger n d f p s).2).dirs = makedirs d s.dirs := by
  have h := acquire_repeat s n d f p i hsome hh hl
  rw [h]
  exact ⟨rfl, rfl, rfl, rfl⟩

/-- C2 witness: a repeat call on a registered, configured logger. -/
theorem C2_witness :
    lookup (SysState.mk
        [(("svc"), LoggerInstance.mk Level.debug
          [Handler.file ("d1/svc.log"), Handler.console] [])]
        [("d1")] [("d1/svc.log")]).registry ("svc") =
      some (LoggerInstance.mk Level.debug [Handler.file ("d1/svc.log"), Handler.console] []) ∧
    (get_logger ("svc") ("d2") false none (SysState.mk
        [(("svc"), LoggerInstance.mk Level.debug
          [Handler.file ("d1/svc.log"), Handler.console] [])]
        [("d1")] [("d1/svc.log")])).1 =
      Except.ok (LoggerInstance.mk Level.debug [Handler.file ("d1/svc.log"), Handler.console] []) :=
  ⟨by rfl,
    (C2_amended (SysState.mk
        [(("svc"), LoggerInstance.mk Level.debug
          [Handler.file ("d1/svc.log"), Handler.console] [])]
        [("d1")] [("d1/svc.log")]) ("svc") ("d2") false none
      (LoggerInstance.mk Level.debug [Handler.file ("d1/svc.log"), Handler.console] [])
      (by rfl) (by decide) (by rfl)).1⟩

/-- C2 counterexample to the claim as stated: for a name whose instance
already exists, two repeat calls that differ only in `log_dir` leave the
process in different states (different directories created), so a repeat
call does perform an observable side effect depending on `log_dir`. -/
theorem C2_counterexample :
    (lookup ((get_logger ("svc") ("d1") true none emptyState).2).registry ("svc")).isSome = true ∧
    ((get_logger ("svc") ("d2") true none
        ((get_logger ("svc") ("d1") true none emptyState).2)).2).dirs ≠
      ((get_logger ("svc") ("d3") true none
        ((get_logger ("svc") ("d1") true none emptyState).2)).2).dirs :=
  ⟨rfl, by decide⟩

/-- C3: a first successful `get_logger` for an unregistered name followed by
a second call of the same name (any other arguments) returns the identical
instance both times — the same registry slot holds it afterwards — and that
instance holds exactly one file sink and one console sink; across both calls
exactly one file handle was opened (sinks are never attached twice). -/
theorem C3_second_acquire_identical (s : SysState) (n d d2 : String) (f f2 : Bool)
    (p p2 : Option (List String)) (inst : LoggerInstance)
    (hnone : lookup s.registry n = none)
    (hok : (get_logger n d f p s).1 = Except.ok inst) :
    (get_logger n d2 f2 p2 (get_logger n d f p s).2).1 = Except.ok inst ∧
    lookup ((get_logger n d2 f2 p2 (get_logger n d f p s).2).2).registry n = some inst ∧
    inst.handlers = [Handler.file (d ++ "/" ++ n ++ ".log"), Handler.console] ∧
    ((get_logger n d2 f2 p2 (get_logger n d f p s).2).2).openFiles =
      ((get_logger n d f p s).2).openFiles ∧
    ((get_logger n d f p s).2).openFiles = (d ++ "/" ++ n ++ ".log") :: s.openFiles := by
  obtain ⟨hlev, hhand, hstate⟩ := acquire_fresh s n d f p inst hnone hok
  have hlook : lookup ((get_logger n d f p s).2).registry n = some inst := by
    rw [hstate]
    exact lookup_regSet_self _ _ _
  have hne : inst.handlers ≠ [] := by
    rw [hhand]
    simp
  have h2 := acquire_repeat ((get_logger n d f p s).2) n d2 f2 p2 inst hlook hne hlev
  refine ⟨by rw [h2], ?_, hhand, by rw [h2], by rw [hstate]⟩
  rw [h2]
  exact hlook

/-- C3 witness: two concrete calls for the name `"svc"` from the empty
state. -/
theorem C3_witness :
    lookup emptyState.registry ("svc") = none ∧
    (get_logger ("svc") ("logs2") true none
        ((get_logger ("svc") ("logs") false none emptyState).2)).1 =
      Except.ok (LoggerInstance.mk Level.debug
        [Handler.file ("logs/svc.log"), Handler.console] []) :=
  ⟨by rfl,
    (C3_second_acquire_identical emptyState ("svc") ("logs") ("logs2") false true none none
      (LoggerInstance.mk Level.debug [Handler.file ("logs/svc.log"), Handler.console] [])
      (by rfl) (by rfl)).1⟩

/-- C4: with no date format, `formatTime` renders exactly the string the
spec prescribes — the instant's civil time at the fixed UTC+8 offset as
`YYYY-MM-DD HH:MM:SS`, a comma (not a period), and the three-digit
truncated (not rounded) millisecond component; in particular an instant
with sub-second part 499.6 ms renders as `",499"`. -/
theorem C4_formatTime_default :
    (∀ us : Nat, ChinaTimeFormatter.formatTime us none = renderSpec us) ∧
    ChinaTimeFormatter.formatTime 499600 none = ("1970-01-01 08:00:00,499") := by
  constructor
  · intro us
    have h : recordMsecs us = us / 1000 % 1000 := by
      unfold recordMsecs
      omega
    simp only [ChinaTimeFormatter.formatTime, ChinaTimeFormatter.formatTimeAt, renderSpec,
      fromtimestamp, Option.getD, strftimeDefault, h]
  · rfl

/-- C5: `formatTime` never consults the host timezone: for every instant and
every date format, its output under any two host UTC offsets is the same
string, and equals the canonical (offset-irrelevant) rendering — the
conversion is pinned to the fixed UTC+8 offset `CHINA_TZ`. -/
theorem C5_host_timezone_independent :
    ∀ (h1 h2 : Int) (us : Nat) (fmt : Option (Civil → String)),
      ChinaTimeFormatter.formatTimeAt h1 us fmt = ChinaTimeFormatter.formatTimeAt h2 us fmt ∧
      ChinaTimeFormatter.formatTimeAt h1 us fmt = ChinaTimeFormatter.formatTime us fmt := by
  intro h1 h2 us fmt
  exact ⟨rfl, rfl⟩

/-- C6: for every compiled pattern list and every rendered message, the
filter returns `false` (suppress) iff at least one pattern's
case-insensitive substring search succeeds on the message, and returns
`true` iff no pattern's search succeeds. -/
theorem C6_suppress_iff_match :
    ∀ (ps : List CRegex) (msg : String),
      (HealthCheckFilter.filter ps msg = false ↔ ∃ p ∈ ps, regexSearch p msg = true) ∧
      (HealthCheckFilter.filter ps msg = true ↔ ∀ p ∈ ps, regexSearch p msg = false) := by
  intro ps msg
  have key : ∀ qs : List CRegex,
      HealthCheckFilter.filter qs msg = false ↔ ∃ p ∈ qs, regexSearch p msg = true := by
    intro qs
    induction qs with
    | nil => simp [HealthCheckFilter.filter]
    | cons p ps ih =>
      cases h : regexSearch p msg with
      | true =>
        simp [HealthCheckFilter.filter, h]
      | false =>
        have hfil : HealthCheckFilter.filter (p :: ps) msg = HealthCheckFilter.filter ps msg := by
          simp [HealthCheckFilter.filter, h]
        rw [hfil, ih]
        constructor
        · rintro ⟨q, hq, hs⟩
          exact ⟨q, List.mem_cons_of_mem p hq, hs⟩
        · rintro ⟨q, hq, hs⟩
          rcases List.mem_cons.mp hq with rfl | hq2
          · rw [h] at hs
            cases hs
          · exact ⟨q, hq2, hs⟩
  refine ⟨key ps, ?_⟩
  cases hf : HealthCheckFilter.filter ps msg with
  | false =>
    constructor
    · intro hh
      cases hh
    · intro hall
      obtain ⟨q, hq, hs⟩ := (key ps).mp hf
      rw [hall q hq] at hs
      cases hs
  | true =>
    constructor
    · intro _ q hq
      cases hs : regexSearch q msg with
      | false => rfl
      | true =>
        have hc : HealthCheckFilter.filter ps msg = false := (key ps).mpr ⟨q, hq, hs⟩
        rw [hf] at hc
        cases hc
    · intro _
      rfl

/-- C7: the filter built from the default pattern set suppresses
`"GET /health"`, `"GET /health/"`, `"GET /api/health"` and (case-
insensitively) `"get /HEALTH"`, but passes `"GET /healthcheck"` and
`"GET /api/healthiness"`, because both default patterns are anchored at
end-of-string. -/
theorem C7_default_pattern_examples :
    (HealthCheckFilter.init none).map (fun f => HealthCheckFilter.filter f ("GET /health")) =
      Except.ok false ∧
    (HealthCheckFilter.init none).map (fun f => HealthCheckFilter.filter f ("GET /health/")) =
      Except.ok false ∧
    (HealthCheckFilter.init none).map (fun f => HealthCheckFilter.filter f ("GET /api/health")) =
      Except.ok false ∧
    (HealthCheckFilter.init none).map (fun f => HealthCheckFilter.filter f ("get /HEALTH")) =
      Except.ok false ∧
    (HealthCheckFilter.init none).map (fun f => HealthCheckFilter.filter f ("GET /healthcheck")) =
      Except.ok true ∧
    (HealthCheckFilter.init none).map (fun f => HealthCheckFilter.filter f ("GET /api/healthiness")) =
      Except.ok true :=
  ⟨rfl, rfl, rfl, rfl, rfl, rfl⟩

/-- C8 (amended): the rotation trigger of the file handler
(`TimedRotatingFileHandler`, `when="midnight"`, default `utc=False`) fires
at midnight boundaries of the HOST's local clock, not of the fixed UTC+8
clock: for every host UTC offset and every instant, the scheduled rollover
is the unique next instant — strictly later, at most one day later — at
which the host-local seconds-of-day is zero. -/
theorem C8_amended :
    ∀ hostOffset t : Int,
      t < computeRollover hostOffset t ∧
      computeRollover hostOffset t ≤ t + 86400 ∧
      (computeRollover hostOffset t + hostOffset) % 86400 = 0 := by
  intro off t
  unfold computeRollover MIDNIGHT
  omega

/-- C8 counterexample to the claim as stated: at instant 0 a host at UTC
schedules the rollover for 86400, a host at UTC+8 for 57600 — the trigger
depends on the host timezone; the UTC host's rollover instant is not a
UTC+8 midnight, and a write at 57601 (after the UTC+8 midnight) does not
rotate on the UTC host. -/
theorem C8_counterexample :
    computeRollover 0 0 = 86400 ∧
    computeRollover 28800 0 = 57600 ∧
    computeRollover 0 0 ≠ computeRollover 28800 0 ∧
    (computeRollover 0 0 + 28800) % 86400 ≠ 0 ∧
    shouldRollover (computeRollover 0 0) 57601 = false :=
  ⟨by decide, by decide, by decide, by decide, by decide⟩

/-- C9: constructing the filter with an explicitly empty pattern list
installs zero compiled patterns and then every record passes; the default
patterns are substituted only for an absent (`None`) argument. -/
theorem C9_empty_pattern_list :
    HealthCheckFilter.init (some []) = Except.ok [] ∧
    (∀ msg : String, HealthCheckFilter.filter [] msg = true) ∧
    HealthCheckFilter.init none = HealthCheckFilter.init (some DEFAULT_HEALTH_CHECK_PATTERNS) :=
  ⟨rfl, fun _ => rfl, rfl⟩

/-- C10: the module-level `logger = get_logger()` executed at import time
builds the `"app"` logger with directory `"logs"` and filtering enabled:
after import, the `"logs"` directory exists, the `"logs/app.log"` handle is
open, the instance is registered under `"app"` at level DEBUG with the two
sinks, and its single installed filter is the default-pattern health-check
filter. -/
theorem C10_import_side_effects :
    moduleImportResult.1.map (fun i => i.handlers) =
      Except.ok [Handler.file ("logs/app.log"), Handler.console] ∧
    moduleImportResult.1.map (fun i => i.level) = Except.ok Level.debug ∧
    moduleImportResult.2.dirs = ["logs"] ∧
    moduleImportResult.2.openFiles = ["logs/app.log"] ∧
    moduleImportResult.1.toOption = lookup moduleImportResult.2.registry ("app") ∧
    moduleImportResult.1.map (fun i => i.filters) =
      (HealthCheckFilter.init none).map (fun f => [f]) :=
  ⟨rfl, rfl, rfl, rfl, rfl, rfl⟩
